import Mathlib

/-!
Verification development for the run-execution core of the digitalhub SDK:
the `Run` entity (build / run / result retrieval), the task-reference string
parser, and the DBT transform runtime (`RuntimeDBT`).

Python values are embedded as the inductive `PyVal` (dictionaries as
association lists with distinct keys, the invariant Python dicts maintain).
Fallible Python code is embedded as `Except PyErr`; every `raise` site of the
source corresponds to an `.error` constructor carrying the exception class and
its `str()` message.  Interpreter-generated messages (e.g. for unpacking
ValueErrors) are abbreviated, since no property depends on their text.
-/

/-- Python exception values: the class together with its `str()` rendering. -/
inductive PyErr where
  | valueError (msg : String)
  | indexError (msg : String)
  | attributeError (msg : String)
  | typeError (msg : String)
  | entityError (msg : String)
  | runtimeError (msg : String)
  | exc (msg : String)
deriving DecidableEq

/-- The `str()` of an exception, as used by `Run.run` to build an ERROR status. -/
def PyErr.str : PyErr → String
  | .valueError m => m
  | .indexError m => m
  | .attributeError m => m
  | .typeError m => m
  | .entityError m => m
  | .runtimeError m => m
  | .exc m => m

/-- Python values as passed around by the SDK: None, strings, lists, dicts. -/
inductive PyVal where
  | vNone
  | vStr (s : String)
  | vList (xs : List PyVal)
  | vDict (d : List (String × PyVal))

/-- A Python dictionary: association list with (by Python's invariant) distinct keys. -/
abbrev PyDict : Type := List (String × PyVal)

/-- Dictionary lookup (`d.get(k)` / `d[k]` when present): first matching key. -/
def dlookup (d : PyDict) (k : String) : Option PyVal :=
  match d with
  | [] => none
  | (k1, v) :: rest => if k1 = k then some v else dlookup rest k

/-- Single-key insertion-or-replacement, exactly Python's `d[k] = v`:
an existing key keeps its position, a new key is appended. -/
def pyUpdate (d : PyDict) (k : String) (v : PyVal) : PyDict :=
  match d with
  | [] => [(k, v)]
  | (k1, v1) :: rest => if k1 = k then (k1, v) :: rest else (k1, v1) :: pyUpdate rest k v

/-- Python's `{**a, **b}`: start from `a` and insert `b`'s items left to right. -/
def pyMerge (a b : PyDict) : PyDict :=
  b.foldl (fun acc kv => pyUpdate acc kv.1 kv.2) a

/-- Left-biased option choice, used to state dictionary-merge precedence. -/
def oOr (a b : Option PyVal) : Option PyVal :=
  match a with
  | some v => some v
  | none => b

/-- Python `str()` of a value.  Only string values are ever converted in the
paths the claims exercise; the `repr` of containers is abbreviated. -/
def pyStr : PyVal → String
  | .vNone => "None"
  | .vStr s => s
  | .vList _ => "[...]"
  | .vDict _ => "[dict]"

/-- Calling `.get` on a value that must be a mapping: `None.get(...)` or
`"x".get(...)` raises AttributeError in Python. -/
def asMapping (v : Option PyVal) : Except PyErr PyDict :=
  match v with
  | some (.vDict d) => .ok d
  | _ => .error (.attributeError "object has no attribute get")

/-- Reading a value that must be a string (e.g. before calling `.split`). -/
def asStr (v : Option PyVal) : Except PyErr String :=
  match v with
  | some (.vStr s) => .ok s
  | _ => .error (.attributeError "object has no attribute split")

/-- Python's `spec.get(k1, {}).get(k2, dflt)` two-level defaulted read used by
`RuntimeDBT.transform` for `inputs`/`outputs`.  A present-but-non-dict value
under `k1` raises AttributeError, exactly as `None.get(...)` would. -/
def pyGet2 (spec : PyDict) (k1 k2 : String) (dflt : PyVal) : Except PyErr PyVal :=
  match dlookup spec k1 with
  | none => .ok dflt
  | some (.vDict m) => .ok ((dlookup m k2).getD dflt)
  | some _ => .error (.attributeError "object has no attribute get")

/-! ## Python `str.split(sep)` on `List Char`

`pySplitGo s0 srest acc l` scans `l` left to right, splitting at each
non-overlapping occurrence of the separator `s0 :: srest`, exactly as Python's
`str.split` with a non-empty separator does. -/

def pySplitGo (s0 : Char) (srest : List Char) : List Char → List Char → List (List Char)
  | acc, [] => [acc.reverse]
  | acc, c :: cs =>
    if (s0 :: srest).isPrefixOf (c :: cs) then
      acc.reverse :: pySplitGo s0 srest [] (cs.drop srest.length)
    else
      pySplitGo s0 srest (c :: acc) cs
termination_by _ l => l.length
decreasing_by
  · simp only [List.length_cons, List.length_drop]
    omega
  · simp only [List.length_cons]
    omega

/-- Python `s.split(sep)` for a non-empty separator (Python raises on an empty
separator; the source only ever splits on "://", "+", "/", ":", "."). -/
def pySplit (sep : List Char) (s : List Char) : List (List Char) :=
  match sep with
  | [] => [s]
  | s0 :: srest => pySplitGo s0 srest [] s

/-- Whether the separator occurs (as a contiguous sublist) anywhere in `l`. -/
def hasOcc (sep : List Char) : List Char → Bool
  | [] => sep.isPrefixOf ([] : List Char)
  | c :: cs => sep.isPrefixOf (c :: cs) || hasOcc sep cs

/-! ## Status states and kind constants

The enums `State` / `StatusState` live in `sdk.entities.base.status`, and the
task/dataitem kind enums in their `kinds` modules; those modules are not part
of the analysed sources. -/

/-- Modelled from the spec: the five run lifecycle states of §4.2
(`sdk.entities.base.status.State`); values are the state names. -/
def State.CREATED : String := "CREATED"

def State.PENDING : String := "PENDING"

def State.RUNNING : String := "RUNNING"

def State.COMPLETED : String := "COMPLETED"

def State.ERROR : String := "ERROR"

/-- Modelled from the spec: `StatusState` (used by the DBT runtime) exposes the
same state machine as `State` (§4.2 describes a single set of states). -/
def StatusState.PENDING : String := State.PENDING

def StatusState.COMPLETED : String := State.COMPLETED

/-- Modelled from the spec: `TaskKinds.TRANSFORM.value`
(`sdk.entities.task.kinds` is not in the analysed sources; §4.5 names the
kind `transform`). -/
def TaskKinds.TRANSFORM : String := "transform"

/-- Modelled from the spec: `DataitemKinds.DBT.value`
(`sdk.entities.dataitem.kinds` is not in the analysed sources). -/
def DataitemKinds.DBT : String := "dbt"

/-- The namedtuple produced by `Run._parse_task_string`. -/
structure TaskString where
  function_kind : List Char
  task_kind : List Char
  function_name : List Char
  function_id : List Char
  task_id : List Char
deriving DecidableEq

/-- The body of `Run._parse_task_string` on an explicit task string and task id:
`kinds, func = task.split("://")` (ValueError unless exactly two parts),
`fnc_kind, tsk_kind = kinds.split("+")` (ValueError unless exactly two parts),
`fnc_name, fnc_id = func.split("/")[1].split(":")` (IndexError when there is
no second segment, ValueError unless that segment splits in exactly two). -/
def parse_task_string (task : List Char) (task_id : List Char) :
    Except PyErr TaskString :=
  match pySplit [':', '/', '/'] task with
  | [kinds, func] =>
    match pySplit ['+'] kinds with
    | [fnc_kind, tsk_kind] =>
      match (pySplit ['/'] func).get? 1 with
      | some seg =>
        match pySplit [':'] seg with
        | [fnc_name, fnc_id] => .ok ⟨fnc_kind, tsk_kind, fnc_name, fnc_id, task_id⟩
        | _ => .error (.valueError "values to unpack")
      | none => .error (.indexError "list index out of range")
    | _ => .error (.valueError "values to unpack")
  | _ => .error (.valueError "values to unpack")

/-- Modelled from the spec: the task-reference encoder producing the persisted
format `"<functionKind>+<taskKind>://<path>/<functionName>:<functionId>"`
(§6); the producer itself is outside the analysed sources. -/
def taskStringEncode (k1 k2 p n i : List Char) : List Char :=
  k1 ++ '+' :: (k2 ++ ':' :: '/' :: '/' :: (p ++ '/' :: (n ++ ':' :: i)))

/-- Follows the spec's format description (§4.1): exactly one `://`, two
`+`-joined kind tokens before it, and exactly one `:`-separated name/id pair
after the last `/`. -/
def taskFormatSpec (s : List Char) : Bool :=
  match pySplit [':', '/', '/'] s with
  | [kinds, rest] =>
    (pySplit ['+'] kinds).length == 2 &&
      (match (pySplit ['/'] rest).getLast? with
       | some lastSeg => (pySplit [':'] lastSeg).length == 2
       | none => false)
  | _ => false

/-! ## The DBT runtime (`sdk/runtimes/objects/dbt.py`)

External collaborators — the backend dataitem CRUD, the dbt engine, the
base64 string codecs of `generic_utils`, and uuid generation — are oracles
bundled in `DbtEnv`; the runtime's own control flow, validation and status
construction are embedded directly from the source. -/

/-- A dataitem entity as returned by the dataitem CRUD collaborator
(fields as in the `DataItem` class: project, name, kind, id). -/
structure Dataitem where
  project : String
  name : String
  kind : String
  id : String
deriving DecidableEq

/-- One timing entry of a dbt `RunResult` (`entry.name`, `started_at`,
`completed_at`; absent timestamps are `None`). -/
structure DbtTimingEntry where
  name : String
  started_at : Option String
  completed_at : Option String
deriving DecidableEq

/-- The node of a dbt `RunResult`. -/
structure DbtNode where
  name : String
  package_name : String
  relation_name : String
  raw_code : String
  compiled_code : String
deriving DecidableEq

/-- A dbt `RunResult`: `status` holds `result.status.value`. -/
structure DbtRunResult where
  status : String
  node : DbtNode
  timing : List DbtTimingEntry
deriving DecidableEq

/-- The `dbtRunnerResult` returned by the engine: its `.result` list. -/
structure DbtRunnerResult where
  result : List DbtRunResult
deriving DecidableEq

/-- Oracles for the DBT runtime's external collaborators. -/
structure DbtEnv where
  /-- `get_dataitem(project, name)` from the dataitem CRUD. -/
  getDataitemResult : String → PyVal → Except PyErr Dataitem
  /-- `new_dataitem(project=..., name=..., kind=..., path=..., uuid=...,
  raw_code=..., compiled_code=...)` from the dataitem CRUD. -/
  newDataitemResult : String → String → String → String → String → String →
    String → Except PyErr Dataitem
  /-- The dbt engine invocation performed by `RuntimeDBT.execute`. -/
  dbtInvoke : String → DbtRunnerResult
  /-- `encode_string` from `generic_utils` (base64 encoding). -/
  encode_string : String → String
  /-- `decode_string(sql)` from `generic_utils`; raises on `None` or
  undecodable input. -/
  decode_string : PyVal → Except PyErr String
  /-- `get_uiid()` from `generic_utils`. -/
  get_uiid : String

/-- The parsed-results record built by `RuntimeDBT.parse_results`. -/
structure ParsedResults where
  name : String
  path : String
  raw_code : String
  compiled_code : String
  timings : PyDict

/-- `RuntimeDBT.tasks` (`[TaskKinds.TRANSFORM.value]`). -/
def RuntimeDBT.tasks : List String := [TaskKinds.TRANSFORM]

/-- `RuntimeDBT.get_allowed_tasks`. -/
def RuntimeDBT.get_allowed_tasks : List String := RuntimeDBT.tasks

/-- `RuntimeDBT.build`: merge the three `spec` sub-dicts with `{**f, **t, **r}`.
A missing or non-mapping `spec` raises TypeError in Python's dict unpacking. -/
def RuntimeDBT.build (function task run : PyDict) : Except PyErr PyDict :=
  match dlookup function "spec", dlookup task "spec", dlookup run "spec" with
  | some (.vDict f), some (.vDict t), some (.vDict r) =>
    .ok (pyMerge (pyMerge f t) r)
  | _, _, _ => .error (.typeError "argument must be a mapping")

/-- `RuntimeDBT.materialize_inputs`: look every named input up through the
dataitem CRUD (a failure becomes `RuntimeError("Dataitem ... not found ...")`)
and write it to a versioned table (`write_df`, a storage side effect). -/
def RuntimeDBT.materialize_inputs (env : DbtEnv) (inputs : List PyVal)
    (project : String) : Except PyErr Unit :=
  match inputs with
  | [] => .ok ()
  | name :: rest =>
    match env.getDataitemResult project name with
    | .error _ =>
      .error (.runtimeError
        ("Dataitem " ++ pyStr name ++ " not found in project " ++ project))
    | .ok _ => RuntimeDBT.materialize_inputs env rest project

/-- `RuntimeDBT.parse_inputs`: inputs must be a Python list, then they are
materialized. -/
def RuntimeDBT.parse_inputs (env : DbtEnv) (inputs : PyVal) (project : String) :
    Except PyErr (List PyVal) :=
  match inputs with
  | .vList xs =>
    match RuntimeDBT.materialize_inputs env xs project with
    | .error e => .error e
    | .ok _ => .ok xs
  | _ => .error (.runtimeError "Inputs must be a list of dataitems")

/-- `RuntimeDBT.parse_outputs`: outputs must be a Python list, and the output
table name is `str(outputs[0])` (IndexError on an empty list). -/
def RuntimeDBT.parse_outputs (outputs : PyVal) : Except PyErr String :=
  match outputs with
  | .vList (o :: _) => .ok (pyStr o)
  | .vList [] => .error (.indexError "list index out of range")
  | _ => .error (.runtimeError "Outputs must be a list of dataitems")

/-- `RuntimeDBT.setup`: decodes the model sql (`decode_string(spec.get("sql"))`)
and writes the dbt project/profile/model files (filesystem side effects,
omitted; the input-conf generation re-reads dataitems through the CRUD). -/
def RuntimeDBT.setup (env : DbtEnv) (sql : PyVal) : Except PyErr Unit :=
  match env.decode_string sql with
  | .error e => .error e
  | .ok _ => .ok ()

/-- `RuntimeDBT.execute`: run the dbt engine over the generated project
(`dbt.invoke(["run", "--select", output])`). -/
def RuntimeDBT.execute (env : DbtEnv) (output : String) : DbtRunnerResult :=
  env.dbtInvoke output

/-- `project.replace("-", "_")` (single-character replacement). -/
def pyReplaceDashUnderscore (s : String) : String :=
  String.mk (s.data.map (fun c => if c = '-' then '_' else c))

/-- `RuntimeDBT.validate_results`: take the last engine result (`result[-1]`,
RuntimeError "No results found." when empty) and check status, project and
output identity. -/
def RuntimeDBT.validate_results (rr : DbtRunnerResult) (output project : String) :
    Except PyErr DbtRunResult :=
  match rr.result.getLast? with
  | none => .error (.runtimeError "No results found.")
  | some result =>
    if result.status ≠ "success" then
      .error (.runtimeError "Something got wrong during function execution.")
    else if result.node.package_name ≠ pyReplaceDashUnderscore project then
      .error (.runtimeError "Wrong project name.")
    else if result.node.name ≠ output then
      .error (.runtimeError "Wrong output name.")
    else
      .ok result

/-- `RuntimeDBT.get_path`: strip the quotes from `relation_name` and join its
dot-components with `/` under the `sql://postgres/` scheme. -/
def RuntimeDBT.get_path (result : DbtRunResult) : String :=
  "sql://postgres/" ++
    String.mk ((result.node.relation_name.data.filter (fun c => c ≠ '\"')).map
      (fun c => if c = '.' then '/' else c))

/-- The last timing entry with the given name, as left by the overwriting
`for` loop of `get_timings`. -/
def lastTimingNamed (nm : String) (timing : List DbtTimingEntry) :
    Option DbtTimingEntry :=
  (timing.filter (fun e => e.name == nm)).getLast?

/-- `RuntimeDBT.get_timings`: requires a compile and an execute entry, each
with both timestamps, and returns the nested `timing` status fragment
(timestamps are carried already `isoformat`-rendered). -/
def RuntimeDBT.get_timings (result : DbtRunResult) : Except PyErr PyDict :=
  match lastTimingNamed "compile" result.timing,
      lastTimingNamed "execute" result.timing with
  | some ct, some et =>
    match et.started_at, et.completed_at, ct.started_at, ct.completed_at with
    | some es, some ec, some cs, some cc =>
      .ok [("timing", .vDict
        [("compile", .vDict
          [("started_at", .vStr cs), ("completed_at", .vStr cc)]),
         ("execute", .vDict
          [("started_at", .vStr es), ("completed_at", .vStr ec)])])]
    | _, _, _, _ => .error (.runtimeError "No active exception to reraise")
  | _, _ => .error (.runtimeError "No active exception to reraise")

/-- `RuntimeDBT.parse_results`: validate, then extract path/code/timings/name;
any failure inside the extraction becomes
`RuntimeError("Something got wrong during results parsing.")`. -/
def RuntimeDBT.parse_results (env : DbtEnv) (rr : DbtRunnerResult)
    (output project : String) : Except PyErr ParsedResults :=
  match RuntimeDBT.validate_results rr output project with
  | .error e => .error e
  | .ok result =>
    match RuntimeDBT.get_timings result with
    | .error _ => .error (.runtimeError "Something got wrong during results parsing.")
    | .ok timings =>
      .ok ⟨result.node.name, RuntimeDBT.get_path result,
        env.encode_string result.node.raw_code,
        env.encode_string result.node.compiled_code, timings⟩

/-- `RuntimeDBT.create_dataitem`: register the produced table as a new
dataitem of kind dbt; any creation failure becomes
`RuntimeError("Something got wrong during dataitem creation.")`. -/
def RuntimeDBT.create_dataitem (env : DbtEnv) (result : ParsedResults)
    (project uuid : String) : Except PyErr Dataitem :=
  match env.newDataitemResult project result.name DataitemKinds.DBT result.path
      uuid result.raw_code result.compiled_code with
  | .ok d => .ok d
  | .error _ => .error (.runtimeError "Something got wrong during dataitem creation.")

/-- `RuntimeDBT.get_dataitem_info`: the `dataitems` status fragment with the
structured `store://` path of the produced dataitem. -/
def RuntimeDBT.get_dataitem_info (output : String) (dataitem : Dataitem) : PyDict :=
  [("dataitems", .vList
    [.vDict
      [("key", .vStr output),
       ("kind", .vStr dataitem.kind),
       ("id", .vStr ("store://" ++ dataitem.project ++ "/dataitems/" ++
         dataitem.kind ++ "/" ++ dataitem.name ++ ":" ++ dataitem.id))]])]

/-- The run's `project` field as read by `transform` (`run.get("project")`);
a missing project is Python's `None`, rendered when interpolated. -/
def projectOf (run : PyDict) : String :=
  pyStr ((dlookup run "project").getD .vNone)

/-- `RuntimeDBT.transform`: parse inputs and outputs from the run spec,
set up the dbt project, execute it, parse and validate the results, register
the produced dataitem and assemble the COMPLETED status mapping
`{**dataitem_info, **timings, "state": COMPLETED}`. -/
def RuntimeDBT.transform (env : DbtEnv) (run : PyDict) : Except PyErr PyDict :=
  match asMapping (dlookup run "spec") with
  | .error e => .error e
  | .ok spec =>
    match pyGet2 spec "inputs" "dataitems" (.vList []) with
    | .error e => .error e
    | .ok inputsRaw =>
      match RuntimeDBT.parse_inputs env inputsRaw (projectOf run) with
      | .error e => .error e
      | .ok _inputs =>
        match pyGet2 spec "outputs" "dataitems" (.vList []) with
        | .error e => .error e
        | .ok outputsRaw =>
          match RuntimeDBT.parse_outputs outputsRaw with
          | .error e => .error e
          | .ok output =>
            match RuntimeDBT.setup env ((dlookup spec "sql").getD .vNone) with
            | .error e => .error e
            | .ok _ =>
              match RuntimeDBT.parse_results env
                  (RuntimeDBT.execute env output) output (projectOf run) with
              | .error e => .error e
              | .ok parsed =>
                match RuntimeDBT.create_dataitem env parsed (projectOf run)
                    env.get_uiid with
                | .error e => .error e
                | .ok dataitem =>
                  .ok (pyMerge
                    (pyMerge (RuntimeDBT.get_dataitem_info output dataitem)
                      parsed.timings)
                    [("state", .vStr StatusState.COMPLETED)])

/-- The task-kind extraction of `RuntimeDBT.run`:
`run.get("spec").get("task").split(":")[0].split("+")[1]`
(IndexError when there is no `+`). -/
def RuntimeDBT.decodeAction (task : String) : Except PyErr (List Char) :=
  match (pySplit ['+'] ((pySplit [':'] task.data).headD [])).get? 1 with
  | some a => .ok a
  | none => .error (.indexError "list index out of range")

/-- Whether a status dict's `state` equals `PENDING` (Python's
`status.get("state") == StatusState.PENDING.value`: a missing or non-string
state compares unequal). -/
def stateIsPending (status : PyDict) : Bool :=
  match dlookup status "state" with
  | some (.vStr s) => s == StatusState.PENDING
  | _ => false

/-- `RuntimeDBT.run`: require a `PENDING` run (EntityError otherwise), decode
the task kind from the task string, and dispatch: `transform` goes to the
transform handler, anything else raises
`EntityError("Task ... not allowed for DBT runtime")`. -/
def RuntimeDBT.run (env : DbtEnv) (run : PyDict) : Except PyErr PyDict :=
  match asMapping (dlookup run "status") with
  | .error e => .error e
  | .ok status =>
    if ¬stateIsPending status then
      .error (.entityError "Run is not in pending state. Build it again.")
    else
      match asMapping (dlookup run "spec") with
      | .error e => .error e
      | .ok spec =>
        match asStr (dlookup spec "task") with
        | .error e => .error e
        | .ok task =>
          match RuntimeDBT.decodeAction task with
          | .error e => .error e
          | .ok action =>
            if action = TaskKinds.TRANSFORM.data then
              RuntimeDBT.transform env run
            else
              .error (.entityError
                ("Task " ++ String.mk action ++ " not allowed for DBT runtime"))

/-! ## The Run entity (`sdk/entities/runs/entity.py`)

The backend (`save`/`refresh` HTTP calls), the function/task reads of
`_get_function`/`_get_task`, and the runtime registry `build_runtime` are
collaborators, passed as oracles.  `build_spec`/`build_status` are the
spec'd identity-shaped builders (§4.4: the merged spec replaces `self.spec`
with validation skipped; `_set_status` stores the given mapping). -/

/-- A runtime object as produced by the registry: its `build` and `run`
methods.  `Run.run` quantifies over arbitrary runtimes; the DBT runtime is
the concrete instance below. -/
structure RuntimeM where
  buildF : PyDict → PyDict → PyDict → Except PyErr PyDict
  runF : PyDict → Except PyErr PyDict

/-- `build_runtime` from `sdk.runtimes.builder`: function kind to runtime. -/
abbrev Registry := String → Except PyErr RuntimeM

/-- The DBT runtime as a registry entry. -/
def dbtRuntimeM (env : DbtEnv) : RuntimeM :=
  ⟨RuntimeDBT.build, RuntimeDBT.run env⟩

/-- The Run entity: id, kind, project (from metadata), spec and status
dictionaries, and the `_local` flag. -/
structure Run where
  id : String
  kind : String
  project : String
  spec : PyDict
  status : PyDict
  localFlag : Bool

/-- Modelled from the spec: `Entity.to_dict` (the base `Entity` class is not
in the analysed sources) serializes the entity's public fields; the runtime
entry points consume its `project`, `spec` and `status` entries. -/
def Run.toDict (r : Run) : PyDict :=
  [("id", .vStr r.id), ("kind", .vStr r.kind), ("project", .vStr r.project),
   ("spec", .vDict r.spec), ("status", .vDict r.status)]

/-- `Run.save(self.id)`: local runs refuse to persist
(`EntityError("Use .export() for local execution.")`); otherwise the entity
is written to the backend.  The persisted snapshot is returned. -/
def Run.save (r : Run) : Except PyErr Run :=
  if r.localFlag then .error (.entityError "Use .export() for local execution.")
  else .ok r

/-- `Run._parse_task_string` reads `self.spec.task` / `self.spec.task_id`
(required string attributes of the run spec) and parses the task string. -/
def Run._parse_task_string (r : Run) : Except PyErr TaskString :=
  match dlookup r.spec "task", dlookup r.spec "task_id" with
  | some (.vStr t), some (.vStr tid) => parse_task_string t.data tid.data
  | _, _ => .error (.attributeError "spec object has no attribute")

/-- `Run._get_runtime`: parse the task string and resolve the runtime
registered for the function kind. -/
def Run._get_runtime (r : Run) (build_runtime : Registry) :
    Except PyErr RuntimeM :=
  match r._parse_task_string with
  | .error e => .error e
  | .ok parsed => build_runtime (String.mk parsed.function_kind)

/-- The observable outcome of a `Run` protocol step: the returned value or
propagated exception, the state of the entity afterwards, and the snapshots
persisted to the backend. -/
structure Outcome (A : Type) where
  result : Except PyErr A
  finalState : Run
  saves : List Run

/-- The ERROR status built by `Run.run`'s failure boundary:
`{"state": State.ERROR.value, "message": str(e)}`. -/
def errorStatus (e : PyErr) : PyDict :=
  [("state", .vStr State.ERROR), ("message", .vStr e.str)]

/-- `Run.run`: resolve the runtime (errors here propagate, before the failure
boundary), invoke `runtime.run(self.to_dict(...))` catching every exception
into an ERROR status, store the status, persist, and return the Run. -/
def Run.run (r : Run) (build_runtime : Registry) : Outcome Run :=
  match r._get_runtime build_runtime with
  | .error e => ⟨.error e, r, []⟩
  | .ok runtime =>
    let status :=
      match runtime.runF r.toDict with
      | .ok st => st
      | .error e => errorStatus e
    let r1 : Run := { r with status := status }
    match r1.save with
    | .error e => ⟨.error e, r1, []⟩
    | .ok snap => ⟨.ok r1, r1, [snap]⟩

/-- The collaborators of `Run.build`: the backend reads of
`_get_function`/`_get_task` and the runtime registry. -/
structure BuildEnv where
  readFunction : TaskString → Except PyErr PyDict
  readTask : TaskString → Except PyErr PyDict
  build_runtime : Registry

/-- `Run.build`: resolve function, task and runtime (each via the parsed task
string), merge the specs through `runtime.build`, replace `self.spec` with the
merged result (`build_spec` with validation skipped), set status PENDING and
persist. -/
def Run.build (r : Run) (env : BuildEnv) : Outcome Unit :=
  match r._parse_task_string with
  | .error e => ⟨.error e, r, []⟩
  | .ok parsed =>
    match env.readFunction parsed with
    | .error e => ⟨.error e, r, []⟩
    | .ok function =>
      match env.readTask parsed with
      | .error e => ⟨.error e, r, []⟩
      | .ok task =>
        match env.build_runtime (String.mk parsed.function_kind) with
        | .error e => ⟨.error e, r, []⟩
        | .ok runtime =>
          match runtime.buildF function task r.toDict with
          | .error e => ⟨.error e, r, []⟩
          | .ok new_spec =>
            let r1 : Run :=
              { r with spec := new_spec,
                       status := [("state", .vStr State.PENDING)] }
            match r1.save with
            | .error e => ⟨.error e, r1, []⟩
            | .ok snap => ⟨.ok (), r1, [snap]⟩

/-- The generator `next((r.get("id") for r in result if r.get("key") == key),
None)`: scan for the first entry whose `key` matches and yield its `id`
(Python `None` when the entry lacks one); a non-dict entry reached before a
match raises AttributeError. -/
def findFirstId (xs : List PyVal) (k : String) : Except PyErr (Option PyVal) :=
  match xs with
  | [] => .ok none
  | .vDict d :: rest =>
    if (match dlookup d "key" with
        | some (.vStr s) => s == k
        | _ => false) then
      .ok (some ((dlookup d "id").getD .vNone))
    else findFirstId rest k
  | _ :: _ => .error (.attributeError "object has no attribute get")

/-- The comprehension `[lookup(r.get("id")) for r in result]`. -/
def resolveAll {A : Type} (xs : List PyVal) (resolve : PyVal → A) :
    Except PyErr (List A) :=
  match xs with
  | [] => .ok []
  | .vDict d :: rest =>
    match resolveAll rest resolve with
    | .error e => .error e
    | .ok l => .ok (resolve ((dlookup d "id").getD .vNone) :: l)
  | _ :: _ => .error (.attributeError "object has no attribute get")

/-- `resp.get("status", {})` followed by `.get(field)`: the defaulted status
dict (AttributeError when the status value is not a mapping). -/
def statusFieldOf (resp : PyDict) (field : String) :
    Except PyErr (Option PyVal) :=
  match dlookup resp "status" with
  | none => .ok (dlookup ([] : PyDict) field)
  | some (.vDict d) => .ok (dlookup d field)
  | some _ => .error (.attributeError "object has no attribute get")

/-- `Run.get_artifacts(output_key=None)`: refresh (local runs cannot), read
the `artifacts` result list (EntityError "Run has no result ..." when absent),
then either resolve the single entry matching the key (EntityError
"No artifact found ..." when none matches) or resolve all entries through
`get_artifact_from_key`.  `resp` is the backend representation returned by
`refresh`, and `get_artifact_from_key` the artifact lookup collaborator. -/
def Run.get_artifacts {A : Type} (r : Run) (resp : PyDict)
    (get_artifact_from_key : PyVal → A) (output_key : Option String) :
    Except PyErr (A ⊕ List A) :=
  if r.localFlag then .error (.entityError "Cannot refresh local run.")
  else
    match statusFieldOf resp "artifacts" with
    | .error e => .error e
    | .ok resultOpt =>
      match resultOpt with
      | none => .error (.entityError "Run has no result (maybe try when it finishes).")
      | some .vNone => .error (.entityError "Run has no result (maybe try when it finishes).")
      | some (.vList result) =>
        match output_key with
        | some k =>
          match findFirstId result k with
          | .error e => .error e
          | .ok none =>
            .error (.entityError ("No artifact found with key '" ++ k ++ "'."))
          | .ok (some .vNone) =>
            .error (.entityError ("No artifact found with key '" ++ k ++ "'."))
          | .ok (some idv) => .ok (.inl (get_artifact_from_key idv))
        | none =>
          match resolveAll result get_artifact_from_key with
          | .error e => .error e
          | .ok l => .ok (.inr l)
      | some _ => .error (.attributeError "object is not iterable of mappings")

/-- `Run.get_dataitem(output_key=None)`: identical protocol over the
`dataitems` result list and the dataitem lookup collaborator. -/
def Run.get_dataitem {A : Type} (r : Run) (resp : PyDict)
    (get_dataitem_from_key : PyVal → A) (output_key : Option String) :
    Except PyErr (A ⊕ List A) :=
  if r.localFlag then .error (.entityError "Cannot refresh local run.")
  else
    match statusFieldOf resp "dataitems" with
    | .error e => .error e
    | .ok resultOpt =>
      match resultOpt with
      | none => .error (.entityError "Run has no result (maybe try when it finishes).")
      | some .vNone => .error (.entityError "Run has no result (maybe try when it finishes).")
      | some (.vList result) =>
        match output_key with
        | some k =>
          match findFirstId result k with
          | .error e => .error e
          | .ok none =>
            .error (.entityError ("No dataitem found with key '" ++ k ++ "'."))
          | .ok (some .vNone) =>
            .error (.entityError ("No dataitem found with key '" ++ k ++ "'."))
          | .ok (some idv) => .ok (.inl (get_dataitem_from_key idv))
        | none =>
          match resolveAll result get_dataitem_from_key with
          | .error e => .error e
          | .ok l => .ok (.inr l)
      | some _ => .error (.attributeError "object is not iterable of mappings")

/-- The Run after `Run.run`'s failure boundary converts exception `e`:
same entity, status replaced by the ERROR status. -/
def runErrFinal (r : Run) (e : PyErr) : Run :=
  { r with status := errorStatus e }

/-- The invalid-state message raised by `RuntimeDBT.run`. -/
def notPendingMsg : String := "Run is not in pending state. Build it again."

/-- A run whose task string lacks the `://` separator. -/
def c10run : Run :=
  ⟨"r10", "run", "proj",
   [("task", .vStr "nosep"), ("task_id", .vStr "t1")], [], false⟩

/-- A registry with no runtimes (irrelevant for `c10run`). -/
def c10reg : Registry := fun _ => .error (.exc "no runtime")

/-- A backend-mode PENDING run with a well-formed task string. -/
def c1run : Run :=
  ⟨"r1", "run", "proj",
   [("task", .vStr "dbt+transform://p/n:i"), ("task_id", .vStr "t1")],
   [("state", .vStr "PENDING")], false⟩

/-- A runtime whose `run` raises an exception with an empty `str()`. -/
def c1rt : RuntimeM := ⟨fun _ _ _ => .ok [], fun _ => .error (.exc "")⟩

def c1reg : Registry := fun _ => .ok c1rt

/-- A runtime whose `run` raises an exception rendered "boom". -/
def c1wrt : RuntimeM := ⟨fun _ _ _ => .ok [], fun _ => .error (.exc "boom")⟩

def c1wreg : Registry := fun _ => .ok c1wrt

/-- A DBT oracle environment whose collaborators all fail (never reached in
the scenarios it is used for). -/
def cDbtEnv : DbtEnv :=
  ⟨fun _ _ => .error (.exc "absent"),
   fun _ _ _ _ _ _ _ => .error (.exc "absent"),
   fun _ => ⟨[]⟩, id, fun _ => .error (.exc "bad sql"), "u1"⟩

def c2reg : Registry := fun _ => .ok (dbtRuntimeM cDbtEnv)

/-- A backend-mode run in state CREATED (not PENDING). -/
def c2run : Run :=
  ⟨"r2", "run", "proj",
   [("task", .vStr "dbt+transform://p/n:i"), ("task_id", .vStr "t1")],
   [("state", .vStr "CREATED")], false⟩

/-- A backend-mode run in state COMPLETED (terminal, not PENDING). -/
def c2wrun : Run :=
  ⟨"r2w", "run", "proj",
   [("task", .vStr "dbt+transform://p/n:i"), ("task_id", .vStr "t1")],
   [("state", .vStr "COMPLETED")], false⟩

/-- The Run after a successful `Run.build`: merged spec, PENDING status. -/
def buildFinal (r : Run) (new_spec : PyDict) : Run :=
  { r with spec := new_spec, status := [("state", .vStr State.PENDING)] }

def c3function : PyDict := [("spec", .vDict [("a", .vStr "f"), ("b", .vStr "f")])]

def c3task : PyDict := [("spec", .vDict [("b", .vStr "t"), ("c", .vStr "t")])]

/-- A backend-mode run whose spec collides with the task spec on key `c`. -/
def c3run : Run :=
  ⟨"r3", "run", "proj",
   [("task", .vStr "dbt+transform://p/n:i"), ("task_id", .vStr "t1"),
    ("c", .vStr "r")], [], false⟩

def c3env : BuildEnv :=
  ⟨fun _ => .ok c3function, fun _ => .ok c3task,
   fun _ => .ok (dbtRuntimeM cDbtEnv)⟩

def c3merged : PyDict :=
  pyMerge (pyMerge [("a", .vStr "f"), ("b", .vStr "f")]
    [("b", .vStr "t"), ("c", .vStr "t")]) c3run.spec

/-- A PENDING run dict whose task kind is not supported by the DBT runtime. -/
def c7dict : PyDict :=
  [("status", .vDict [("state", .vStr "CREATED")]),
   ("spec", .vDict [("task", .vStr "dbt+foo://p/n:i")])]

/-- A PENDING run dict targeting the transform task kind. -/
def c7pdict : PyDict :=
  [("status", .vDict [("state", .vStr "PENDING")]),
   ("spec", .vDict [("task", .vStr "dbt+transform://p/n:i")])]

/-- A result list in the shape the data model gives it: entries
`{key: ..., id: ...}`. -/
def resultEntries (entries : List (String × String)) : List PyVal :=
  entries.map (fun p => .vDict [("key", .vStr p.1), ("id", .vStr p.2)])

/-- A backend-mode run used for result retrieval. -/
def c8run : Run := ⟨"r8", "run", "proj", [], [], false⟩

/-- A refreshed backend representation with one artifact and one dataitem. -/
def c8resp : PyDict :=
  [("status", .vDict
    [("artifacts", .vList (resultEntries [("out", "a1")])),
     ("dataitems", .vList (resultEntries [("out", "d1")]))])]

/-- A refreshed backend representation with no result lists. -/
def c8respEmpty : PyDict := [("status", .vDict [])]

def c9node : DbtNode :=
  ⟨"t2", "proj", "\"db\".\"sch\".\"t2\"", "select 1", "select 1 compiled"⟩

def c9result : DbtRunResult :=
  ⟨"success", c9node,
   [⟨"compile", some "cs", some "cc"⟩, ⟨"execute", some "es", some "ec"⟩]⟩

/-- A DBT environment on which the whole transform pipeline succeeds. -/
def c9env : DbtEnv :=
  ⟨fun _ _ => .ok ⟨"proj", "t1", "table", "d0"⟩,
   fun pr nm kd _pth uu _rw _cp => .ok ⟨pr, nm, kd, uu⟩,
   fun _ => ⟨[c9result]⟩, id, fun _ => .ok "select 1", "u9"⟩

def c9spec : PyDict :=
  [("outputs", .vDict [("dataitems", .vList [.vStr "t2"])]),
   ("sql", .vStr "c2VsZWN0")]

def c9run : PyDict := [("project", .vStr "proj"), ("spec", .vDict c9spec)]

/-- The status mapping produced by the transform on the fixtures above. -/
def c9st : PyDict :=
  [("dataitems", .vList [.vDict
     [("key", .vStr "t2"), ("kind", .vStr "dbt"),
      ("id", .vStr "store://proj/dataitems/dbt/t2:u9")]]),
   ("timing", .vDict
     [("compile", .vDict
       [("started_at", .vStr "cs"), ("completed_at", .vStr "cc")]),
      ("execute", .vDict
       [("started_at", .vStr "es"), ("completed_at", .vStr "ec")])]),
   ("state", .vStr "COMPLETED")]


/-! ## Lemmas and claim theorems -/

lemma isPrefixOf_self_append (x y : List Char) : x.isPrefixOf (x ++ y) = true := by
  induction x with
  | nil => simp [List.isPrefixOf]
  | cons c cs ih => simp [List.isPrefixOf, ih]

lemma not_isPrefixOf_of_head_not_mem (c : Char) (t l : List Char) (h : c ∉ l) :
    (c :: t).isPrefixOf l = false := by
  cases l with
  | nil => rfl
  | cons d ds =>
    have hcd : c ≠ d := fun he => h (he ▸ List.mem_cons_self d ds)
    simp [List.isPrefixOf, hcd]

lemma hasOcc_eq_false_of_not_mem (s0 : Char) (srest l : List Char) (h : s0 ∉ l) :
    hasOcc (s0 :: srest) l = false := by
  induction l with
  | nil => rfl
  | cons c cs ih =>
    have hc : s0 ≠ c := fun he => h (he ▸ List.mem_cons_self c cs)
    have hcs : s0 ∉ cs := fun hm => h (List.mem_cons_of_mem c hm)
    simp [hasOcc, List.isPrefixOf, hc, ih hcs]

lemma hasOcc_append_of_not_mem (s0 : Char) (srest xs ys : List Char) (h : s0 ∉ xs) :
    hasOcc (s0 :: srest) (xs ++ ys) = hasOcc (s0 :: srest) ys := by
  induction xs with
  | nil => rfl
  | cons c cs ih =>
    have hc : s0 ≠ c := fun he => h (he ▸ List.mem_cons_self c cs)
    have hcs : s0 ∉ cs := fun hm => h (List.mem_cons_of_mem c hm)
    cases hys : hasOcc (s0 :: srest) ys <;>
      simp [hasOcc, List.isPrefixOf, hc, ih hcs, hys]

lemma pySplitGo_no_occ (s0 : Char) (srest : List Char) (l : List Char)
    (h : hasOcc (s0 :: srest) l = false) :
    ∀ acc, pySplitGo s0 srest acc l = [acc.reverse ++ l] := by
  induction l with
  | nil => intro acc; simp [pySplitGo]
  | cons c cs ih =>
    intro acc
    have h1 : (s0 :: srest).isPrefixOf (c :: cs) = false := by
      by_contra hb
      simp only [hasOcc, Bool.or_eq_false_iff] at h
      exact absurd h.1 hb
    have h2 : hasOcc (s0 :: srest) cs = false := by
      simp only [hasOcc, Bool.or_eq_false_iff] at h
      exact h.2
    simp [pySplitGo, h1, ih h2]

lemma drop_length_append (x y : List Char) : (x ++ y).drop x.length = y := by
  induction x with
  | nil => rfl
  | cons c cs ih => simp [ih]

lemma pySplitGo_boundary (s0 : Char) (srest b : List Char) (a : List Char)
    (ha : s0 ∉ a) :
    ∀ acc, pySplitGo s0 srest acc (a ++ (s0 :: srest) ++ b) =
      (acc.reverse ++ a) :: pySplitGo s0 srest [] b := by
  induction a with
  | nil =>
    intro acc
    have hshape : ([] : List Char) ++ (s0 :: srest) ++ b = s0 :: (srest ++ b) := by simp
    rw [hshape]
    have hpre : (s0 :: srest).isPrefixOf (s0 :: (srest ++ b)) = true := by
      simp [List.isPrefixOf, isPrefixOf_self_append]
    have hdrop : (srest ++ b).drop srest.length = b := drop_length_append srest b
    simp [pySplitGo, hpre, hdrop]
  | cons ch a1 ih =>
    intro acc
    have hc : s0 ≠ ch := fun he => ha (he ▸ List.mem_cons_self ch a1)
    have ha1 : s0 ∉ a1 := fun hm => ha (List.mem_cons_of_mem ch hm)
    have hshape : (ch :: a1) ++ (s0 :: srest) ++ b = ch :: (a1 ++ (s0 :: srest) ++ b) := by
      simp
    rw [hshape]
    have hpre : (s0 :: srest).isPrefixOf (ch :: (a1 ++ (s0 :: srest) ++ b)) = false := by
      simp [List.isPrefixOf, hc]
    have hrec := ih ha1 (ch :: acc)
    simp only [pySplitGo]
    rw [hpre]
    simp only [Bool.false_eq_true, if_false]
    rw [hrec]
    simp

lemma pySplit_no_occ (s0 : Char) (srest l : List Char)
    (h : hasOcc (s0 :: srest) l = false) :
    pySplit (s0 :: srest) l = [l] := by
  have := pySplitGo_no_occ s0 srest l h []
  simpa [pySplit] using this

lemma pySplit_two (s0 : Char) (srest a b : List Char)
    (ha : s0 ∉ a) (hb : hasOcc (s0 :: srest) b = false) :
    pySplit (s0 :: srest) (a ++ (s0 :: srest) ++ b) = [a, b] := by
  have h1 := pySplitGo_boundary s0 srest b a ha []
  have h2 := pySplitGo_no_occ s0 srest b hb []
  simp [pySplit] at h1 h2 ⊢
  rw [h1, h2]

lemma parse_taskStringEncode (k1 k2 p n i tid : List Char)
    (hk1p : '+' ∉ k1) (hk1c : ':' ∉ k1)
    (hk2p : '+' ∉ k2) (hk2c : ':' ∉ k2)
    (hpc : ':' ∉ p) (hps : '/' ∉ p)
    (hnc : ':' ∉ n) (hns : '/' ∉ n)
    (hic : ':' ∉ i) (his : '/' ∉ i) :
    parse_task_string (taskStringEncode k1 k2 p n i) tid =
      .ok ⟨k1, k2, n, i, tid⟩ := by
  have htop : taskStringEncode k1 k2 p n i =
      (k1 ++ '+' :: k2) ++ (':' :: ['/', '/']) ++ (p ++ '/' :: (n ++ ':' :: i)) := by
    simp [taskStringEncode]
  have hmemA : ':' ∉ k1 ++ '+' :: k2 := by
    intro hm
    rcases List.mem_append.mp hm with h | h
    · exact hk1c h
    · rcases List.mem_cons.mp h with h | h
      · exact absurd h (by decide)
      · exact hk2c h
  have hoccB : hasOcc (':' :: ['/', '/']) (p ++ '/' :: (n ++ ':' :: i)) = false := by
    have hshape : p ++ '/' :: (n ++ ':' :: i) = (p ++ '/' :: n) ++ ':' :: i := by simp
    rw [hshape]
    have hxs : ':' ∉ p ++ '/' :: n := by
      intro hm
      rcases List.mem_append.mp hm with h | h
      · exact hpc h
      · rcases List.mem_cons.mp h with h | h
        · exact absurd h (by decide)
        · exact hnc h
    rw [hasOcc_append_of_not_mem ':' ['/', '/'] _ _ hxs]
    have hpre : (['/', '/'] : List Char).isPrefixOf i = false :=
      not_isPrefixOf_of_head_not_mem '/' ['/'] i his
    have hrest : hasOcc (':' :: ['/', '/']) i = false :=
      hasOcc_eq_false_of_not_mem ':' ['/', '/'] i hic
    simp [hasOcc, List.isPrefixOf, hpre, hrest]
  have h1 : pySplit [':', '/', '/'] (taskStringEncode k1 k2 p n i) =
      [k1 ++ '+' :: k2, p ++ '/' :: (n ++ ':' :: i)] := by
    rw [htop]
    exact pySplit_two ':' ['/', '/'] _ _ hmemA hoccB
  have h2 : pySplit ['+'] (k1 ++ '+' :: k2) = [k1, k2] := by
    have hshape : k1 ++ '+' :: k2 = k1 ++ ('+' :: []) ++ k2 := by simp
    rw [hshape]
    exact pySplit_two '+' [] k1 k2 hk1p (hasOcc_eq_false_of_not_mem '+' [] k2 hk2p)
  have h3 : pySplit ['/'] (p ++ '/' :: (n ++ ':' :: i)) = [p, n ++ ':' :: i] := by
    have hshape : p ++ '/' :: (n ++ ':' :: i) = p ++ ('/' :: []) ++ (n ++ ':' :: i) := by
      simp
    rw [hshape]
    have hb : '/' ∉ n ++ ':' :: i := by
      intro hm
      rcases List.mem_append.mp hm with h | h
      · exact hns h
      · rcases List.mem_cons.mp h with h | h
        · exact absurd h (by decide)
        · exact his h
    exact pySplit_two '/' [] p _ hps (hasOcc_eq_false_of_not_mem '/' [] _ hb)
  have h4 : pySplit [':'] (n ++ ':' :: i) = [n, i] := by
    have hshape : n ++ ':' :: i = n ++ (':' :: []) ++ i := by simp
    rw [hshape]
    exact pySplit_two ':' [] n i hnc (hasOcc_eq_false_of_not_mem ':' [] i hic)
  rw [parse_task_string, h1]
  simp [h2, h3, h4]

lemma oOr_none_right (a : Option PyVal) : oOr a none = a := by
  cases a <;> rfl

lemma oOr_assoc (a b c : Option PyVal) : oOr (oOr a b) c = oOr a (oOr b c) := by
  cases a <;> rfl

lemma ite_comm_eq (x y : String) (a b : Option PyVal) :
    (if x = y then a else b) = (if y = x then a else b) := by
  by_cases h : x = y
  · subst h; rfl
  · rw [if_neg h, if_neg (fun he => h he.symm)]

lemma dlookup_pyUpdate (d : PyDict) (k k1 : String) (v : PyVal) :
    dlookup (pyUpdate d k v) k1 = if k1 = k then some v else dlookup d k1 := by
  induction d with
  | nil =>
    simp only [pyUpdate, dlookup]
    exact ite_comm_eq k k1 (some v) none
  | cons kv rest ih =>
    obtain ⟨k2, v2⟩ := kv
    by_cases h2 : k2 = k
    · subst h2
      simp only [pyUpdate, if_pos rfl, dlookup]
      by_cases h : k2 = k1
      · subst h; simp
      · simp [h, Ne.symm h]
    · simp only [pyUpdate, if_neg h2, dlookup, ih]
      by_cases h4 : k2 = k1
      · subst h4
        have h5 : ¬k2 = k := h2
        simp [fun he : k2 = k => h2 he]
      · simp [h4]

lemma dlookup_append (xs ys : PyDict) (k : String) :
    dlookup (xs ++ ys) k = oOr (dlookup xs k) (dlookup ys k) := by
  induction xs with
  | nil => simp [dlookup, oOr]
  | cons kv rest ih =>
    obtain ⟨k1, v1⟩ := kv
    by_cases h : k1 = k
    · subst h
      simp [dlookup, oOr]
    · simp [dlookup, h, ih]

lemma dlookup_eq_none_of_not_mem (d : PyDict) (k : String)
    (h : k ∉ d.map Prod.fst) : dlookup d k = none := by
  induction d with
  | nil => rfl
  | cons kv rest ih =>
    obtain ⟨k1, v1⟩ := kv
    have h1 : k1 ≠ k := by
      intro he
      exact h (by simp [he])
    have h2 : k ∉ rest.map Prod.fst := fun hm => h (by simp [hm])
    simp [dlookup, h1, ih h2]

/-- For a dictionary with distinct keys (as all Python dicts have), lookup in
the reversed list agrees with lookup. -/
lemma dlookup_reverse_of_nodup (d : PyDict) (k : String)
    (h : (d.map Prod.fst).Nodup) : dlookup d.reverse k = dlookup d k := by
  induction d with
  | nil => rfl
  | cons kv rest ih =>
    obtain ⟨k1, v1⟩ := kv
    simp only [List.map_cons, List.nodup_cons] at h
    rw [List.reverse_cons, dlookup_append]
    by_cases hk : k1 = k
    · subst hk
      rw [dlookup_eq_none_of_not_mem rest.reverse k1
        (by simpa using h.1)]
      simp [dlookup, oOr]
    · rw [ih h.2]
      simp [dlookup, hk, oOr_none_right]

lemma pyMerge_nil (a : PyDict) : pyMerge a [] = a := rfl

lemma pyMerge_cons (a : PyDict) (k : String) (v : PyVal) (rest : PyDict) :
    pyMerge a ((k, v) :: rest) = pyMerge (pyUpdate a k v) rest := rfl

/-- The fundamental merge-lookup law: `{**a, **b}` looks up in `b` (its last
binding for the key, hence the reverse) and falls back to `a`. -/
lemma dlookup_pyMerge (b a : PyDict) (k : String) :
    dlookup (pyMerge a b) k = oOr (dlookup b.reverse k) (dlookup a k) := by
  induction b generalizing a with
  | nil => simp [pyMerge_nil, dlookup, oOr]
  | cons kv rest ih =>
    obtain ⟨k0, v0⟩ := kv
    rw [pyMerge_cons, ih, List.reverse_cons, dlookup_append, oOr_assoc]
    congr 1
    rw [dlookup_pyUpdate]
    by_cases h : k = k0
    · subst h
      simp [dlookup, oOr]
    · simp [dlookup, h, Ne.symm h, oOr]

/-- Merge-lookup for dictionaries with distinct keys: the right dictionary
wins on collisions. -/
lemma dlookup_pyMerge_nodup (a b : PyDict) (k : String)
    (hb : (b.map Prod.fst).Nodup) :
    dlookup (pyMerge a b) k = oOr (dlookup b k) (dlookup a k) := by
  rw [dlookup_pyMerge, dlookup_reverse_of_nodup b k hb]

lemma get_timings_ok_shape (result : DbtRunResult) (t : PyDict)
    (h : RuntimeDBT.get_timings result = .ok t) :
    ∃ tv, t = [("timing", tv)] := by
  unfold RuntimeDBT.get_timings at h
  split at h
  · split at h
    · exact ⟨_, ((Except.ok.injEq _ _).mp h).symm⟩
    · exact Except.noConfusion h
  · exact Except.noConfusion h

lemma parse_results_ok_timing (env : DbtEnv) (rr : DbtRunnerResult)
    (output project : String) (parsed : ParsedResults)
    (h : RuntimeDBT.parse_results env rr output project = .ok parsed) :
    ∃ tv, parsed.timings = [("timing", tv)] := by
  unfold RuntimeDBT.parse_results at h
  split at h
  · exact Except.noConfusion h
  · rename_i result heq
    split at h
    · exact Except.noConfusion h
    · rename_i timings htim
      obtain ⟨tv, htv⟩ := get_timings_ok_shape result timings htim
      have hp := (Except.ok.injEq _ _).mp h
      refine ⟨tv, ?_⟩
      rw [← hp]
      exact htv

lemma create_dataitem_ok_inv (env : DbtEnv) (p : ParsedResults)
    (project uuid : String) (d : Dataitem)
    (h : RuntimeDBT.create_dataitem env p project uuid = .ok d) :
    env.newDataitemResult project p.name DataitemKinds.DBT p.path uuid
      p.raw_code p.compiled_code = .ok d := by
  unfold RuntimeDBT.create_dataitem at h
  split at h
  · rename_i d1 heq
    rw [heq]
    exact congrArg Except.ok ((Except.ok.injEq _ _).mp h)
  · exact Except.noConfusion h

lemma transform_ok_inv (env : DbtEnv) (run : PyDict) (st : PyDict)
    (h : RuntimeDBT.transform env run = .ok st) :
    ∃ spec outputsRaw output parsed dataitem tv,
      asMapping (dlookup run "spec") = .ok spec ∧
      pyGet2 spec "outputs" "dataitems" (.vList []) = .ok outputsRaw ∧
      RuntimeDBT.parse_outputs outputsRaw = .ok output ∧
      RuntimeDBT.create_dataitem env parsed (projectOf run) env.get_uiid =
        .ok dataitem ∧
      parsed.timings = [("timing", tv)] ∧
      st = pyMerge (pyMerge (RuntimeDBT.get_dataitem_info output dataitem)
        parsed.timings) [("state", .vStr StatusState.COMPLETED)] := by
  unfold RuntimeDBT.transform at h
  split at h
  · exact Except.noConfusion h
  · rename_i spec hspec
    split at h
    · exact Except.noConfusion h
    · rename_i inputsRaw hinRaw
      split at h
      · exact Except.noConfusion h
      · rename_i inputs hin
        split at h
        · exact Except.noConfusion h
        · rename_i outputsRaw houtRaw
          split at h
          · exact Except.noConfusion h
          · rename_i output hout
            split at h
            · exact Except.noConfusion h
            · rename_i u hsetup
              split at h
              · exact Except.noConfusion h
              · rename_i parsed hparsed
                split at h
                · exact Except.noConfusion h
                · rename_i dataitem hcreate
                  obtain ⟨tv, htv⟩ :=
                    parse_results_ok_timing env _ output (projectOf run)
                      parsed hparsed
                  exact ⟨spec, outputsRaw, output, parsed, dataitem, tv,
                    hspec, houtRaw, hout, hcreate, htv,
                    ((Except.ok.injEq _ _).mp h).symm⟩

lemma pyMerge_single (a : PyDict) (k : String) (v : PyVal) :
    pyMerge a [(k, v)] = pyUpdate a k v := rfl

/-- The `state` entry of any transform-shaped status is COMPLETED. -/
lemma dlookup_state_of_transform_shape (info T : PyDict) :
    dlookup (pyMerge (pyMerge info T) [("state", .vStr StatusState.COMPLETED)])
      "state" = some (.vStr StatusState.COMPLETED) := by
  rw [pyMerge_single, dlookup_pyUpdate]
  simp

lemma transform_ok_state (env : DbtEnv) (run : PyDict) (st : PyDict)
    (h : RuntimeDBT.transform env run = .ok st) :
    dlookup st "state" = some (.vStr StatusState.COMPLETED) := by
  obtain ⟨_, _, _, _, _, _, _, _, _, _, _, hst⟩ := transform_ok_inv env run st h
  rw [hst]
  exact dlookup_state_of_transform_shape _ _

/-- A successful DBT `run` only arises from the transform handler. -/
lemma dbt_run_ok_transform (env : DbtEnv) (d : PyDict) (st : PyDict)
    (h : RuntimeDBT.run env d = .ok st) :
    RuntimeDBT.transform env d = .ok st := by
  unfold RuntimeDBT.run at h
  split at h
  · exact Except.noConfusion h
  · split at h
    · exact Except.noConfusion h
    · split at h
      · exact Except.noConfusion h
      · split at h
        · exact Except.noConfusion h
        · split at h
          · exact Except.noConfusion h
          · split at h
            · exact h
            · exact Except.noConfusion h

lemma dbt_run_ok_state (env : DbtEnv) (d : PyDict) (st : PyDict)
    (h : RuntimeDBT.run env d = .ok st) :
    dlookup st "state" = some (.vStr StatusState.COMPLETED) :=
  transform_ok_state env d st (dbt_run_ok_transform env d st h)

/-- Claim C10: in `Run.run` the runtime is resolved before the
exception-catching boundary, so a task string that cannot be parsed, or a
function kind with no registered runtime, raises directly to the caller and
leaves the run's status unchanged with nothing persisted. -/
theorem C10_runtime_resolution_before_boundary (r : Run) (reg : Registry)
    (e : PyErr) :
    (r._parse_task_string = .error e → Run.run r reg = ⟨.error e, r, []⟩) ∧
    (∀ parsed, r._parse_task_string = .ok parsed →
      reg (String.mk parsed.function_kind) = .error e →
      Run.run r reg = ⟨.error e, r, []⟩) := by
  constructor
  · intro h
    simp [Run.run, Run._get_runtime, h]
  · intro parsed hp hreg
    simp [Run.run, Run._get_runtime, hp, hreg]

theorem C10_witness :
    Run.run c10run c10reg = ⟨.error (.valueError "values to unpack"), c10run, []⟩ :=
  (C10_runtime_resolution_before_boundary c10run c10reg _).1
    (by simp [Run._parse_task_string, c10run, dlookup, parse_task_string,
      pySplit, pySplitGo, List.isPrefixOf])

/-- Claim C1 counterexample: a runtime exception whose `str()` is empty is
caught (the call returns normally with a persisted ERROR status), but the
recorded message is the empty string — refuting the claim's
"a non-empty message". -/
theorem C1_counterexample :
    Run.run c1run c1reg =
      ⟨.ok (runErrFinal c1run (.exc "")), runErrFinal c1run (.exc ""),
       [runErrFinal c1run (.exc "")]⟩ ∧
    dlookup (runErrFinal c1run (.exc "")).status "message" = some (.vStr "") := by
  constructor
  · simp [Run.run, Run._get_runtime, Run._parse_task_string, c1run, c1reg, c1rt,
      parse_task_string, pySplit, pySplitGo, List.isPrefixOf, dlookup, Run.save,
      runErrFinal, errorStatus, PyErr.str]
  · simp [runErrFinal, errorStatus, PyErr.str, dlookup]

/-- Claim C1 (amended): for every backend-mode Run whose resolved Runtime's
`run` raises, `Run.run` does not propagate the exception: the status becomes
`state = ERROR`, `message = str(exception)` (a message that is empty exactly
when the exception's `str()` is empty), the status is persisted and the Run
is returned. -/
theorem C1_run_catches_runtime_exception (r : Run) (reg : Registry)
    (rt : RuntimeM) (e : PyErr)
    (hloc : r.localFlag = false)
    (hrt : r._get_runtime reg = .ok rt)
    (hrun : rt.runF r.toDict = .error e) :
    Run.run r reg =
      ⟨.ok (runErrFinal r e), runErrFinal r e, [runErrFinal r e]⟩ ∧
    dlookup (runErrFinal r e).status "state" = some (.vStr State.ERROR) ∧
    dlookup (runErrFinal r e).status "message" = some (.vStr e.str) := by
  refine ⟨?_, by simp [runErrFinal, errorStatus, dlookup],
    by simp [runErrFinal, errorStatus, dlookup]⟩
  simp [Run.run, hrt, hrun, Run.save, hloc, runErrFinal]

theorem C1_witness :
    Run.run c1run c1wreg =
      ⟨.ok (runErrFinal c1run (.exc "boom")), runErrFinal c1run (.exc "boom"),
       [runErrFinal c1run (.exc "boom")]⟩ ∧
    dlookup (runErrFinal c1run (.exc "boom")).status "state" =
      some (.vStr State.ERROR) ∧
    dlookup (runErrFinal c1run (.exc "boom")).status "message" =
      some (.vStr "boom") :=
  C1_run_catches_runtime_exception c1run c1wreg c1wrt (.exc "boom") rfl
    (by simp [Run._get_runtime, Run._parse_task_string, c1run, c1wreg, dlookup,
      parse_task_string, pySplit, pySplitGo, List.isPrefixOf])
    rfl

/-- Claim C2 counterexample: executing a CREATED (non-PENDING) run backed by
the DBT runtime does not raise `InvalidStateError` to the caller: the call
returns normally and the run ends in a persisted ERROR status carrying the
invalid-state message. -/
theorem C2_counterexample :
    Run.run c2run c2reg =
      ⟨.ok (runErrFinal c2run (.entityError notPendingMsg)),
       runErrFinal c2run (.entityError notPendingMsg),
       [runErrFinal c2run (.entityError notPendingMsg)]⟩ ∧
    dlookup c2run.status "state" = some (.vStr "CREATED") ∧
    dlookup (runErrFinal c2run (.entityError notPendingMsg)).status "state" =
      some (.vStr "ERROR") := by
  refine ⟨?_, by simp [c2run, dlookup],
    by simp [runErrFinal, errorStatus, dlookup, State.ERROR]⟩
  simp [Run.run, Run._get_runtime, Run._parse_task_string, c2run, c2reg,
    dbtRuntimeM, RuntimeDBT.run, asMapping, stateIsPending,
    StatusState.PENDING, State.PENDING, parse_task_string, pySplit, pySplitGo,
    List.isPrefixOf, dlookup, Run.toDict, Run.save, runErrFinal, errorStatus,
    PyErr.str, notPendingMsg]

/-- Claim C2 (amended): with the DBT runtime resolved for a backend-mode Run,
executing from any non-PENDING state does not raise: the invalid-state
EntityError is caught by the failure boundary and the Run ends in ERROR with
message "Run is not in pending state. Build it again."; and every such
execution ends in a terminal state (COMPLETED or ERROR).  When the runtime
cannot be resolved the error propagates and the state is unchanged (C10). -/
theorem C2_execute_nonpending_and_terminal (denv : DbtEnv) (r : Run)
    (reg : Registry)
    (hloc : r.localFlag = false)
    (hrt : r._get_runtime reg = .ok (dbtRuntimeM denv)) :
    (stateIsPending r.status = false →
      Run.run r reg =
        ⟨.ok (runErrFinal r (.entityError notPendingMsg)),
         runErrFinal r (.entityError notPendingMsg),
         [runErrFinal r (.entityError notPendingMsg)]⟩) ∧
    (dlookup (Run.run r reg).finalState.status "state" =
        some (.vStr State.COMPLETED) ∨
      dlookup (Run.run r reg).finalState.status "state" =
        some (.vStr State.ERROR)) := by
  constructor
  · intro hp
    have hrunf : RuntimeDBT.run denv r.toDict =
        .error (.entityError notPendingMsg) := by
      unfold RuntimeDBT.run
      have hst : asMapping (dlookup r.toDict "status") = .ok r.status := by
        simp [Run.toDict, dlookup, asMapping]
      rw [hst]
      simp [hp, notPendingMsg]
    simp [Run.run, hrt, dbtRuntimeM, hrunf, Run.save, hloc, runErrFinal]
  · cases hr : RuntimeDBT.run denv r.toDict with
    | ok st =>
      left
      have hfs : (Run.run r reg).finalState = { r with status := st } := by
        simp [Run.run, hrt, dbtRuntimeM, hr, Run.save, hloc]
      rw [hfs]
      exact dbt_run_ok_state denv r.toDict st hr
    | error e =>
      right
      have hfs : (Run.run r reg).finalState = runErrFinal r e := by
        simp [Run.run, hrt, dbtRuntimeM, hr, Run.save, hloc, runErrFinal]
      rw [hfs]
      simp [runErrFinal, errorStatus, dlookup]

theorem C2_witness :
    Run.run c2wrun c2reg =
      ⟨.ok (runErrFinal c2wrun (.entityError notPendingMsg)),
       runErrFinal c2wrun (.entityError notPendingMsg),
       [runErrFinal c2wrun (.entityError notPendingMsg)]⟩ :=
  (C2_execute_nonpending_and_terminal cDbtEnv c2wrun c2reg rfl
      (by simp [Run._get_runtime, Run._parse_task_string, c2wrun, c2reg, dlookup,
        parse_task_string, pySplit, pySplitGo, List.isPrefixOf])).1
    (by simp [stateIsPending, c2wrun, dlookup, StatusState.PENDING, State.PENDING])

/-- Every outcome of `Run.build`: a pre-persist failure leaving the run
untouched, a persist failure after the state was already set, or success. -/
lemma build_cases (r : Run) (env : BuildEnv) :
    (∃ e, Run.build r env = ⟨.error e, r, []⟩) ∨
    (∃ new_spec e, Run.build r env = ⟨.error e, buildFinal r new_spec, []⟩) ∨
    (∃ new_spec, Run.build r env =
      ⟨.ok (), buildFinal r new_spec, [buildFinal r new_spec]⟩) := by
  unfold Run.build
  split
  · exact .inl ⟨_, rfl⟩
  · split
    · exact .inl ⟨_, rfl⟩
    · split
      · exact .inl ⟨_, rfl⟩
      · split
        · exact .inl ⟨_, rfl⟩
        · split
          · exact .inl ⟨_, rfl⟩
          · rename_i new_spec hns
            dsimp only
            split
            · exact .inr (.inl ⟨new_spec, _, rfl⟩)
            · rename_i snap hsave
              unfold Run.save at hsave
              split at hsave
              · exact Except.noConfusion hsave
              · have hsnap := (Except.ok.injEq _ _).mp hsave
                subst hsnap
                exact .inr (.inr ⟨new_spec, rfl⟩)

/-- A successful `Run.build` always leaves `status.state = PENDING`. -/
lemma build_ok_pending (r : Run) (env : BuildEnv)
    (h : (Run.build r env).result = .ok ()) :
    dlookup (Run.build r env).finalState.status "state" =
      some (.vStr State.PENDING) := by
  rcases build_cases r env with ⟨e, hc⟩ | ⟨ns, e, hc⟩ | ⟨ns, hc⟩
  · rw [hc] at h
    exact Except.noConfusion h
  · rw [hc] at h
    exact Except.noConfusion h
  · rw [hc]
    simp [buildFinal, dlookup]

/-- Claim C4: a successful `Run.build` always leaves `status.state = PENDING`,
and building twice in a row leaves the state at PENDING both times. -/
theorem C4_build_state_pending_idempotent (r : Run) (env : BuildEnv)
    (h1 : (Run.build r env).result = .ok ())
    (h2 : (Run.build (Run.build r env).finalState env).result = .ok ()) :
    dlookup (Run.build r env).finalState.status "state" =
        some (.vStr State.PENDING) ∧
      dlookup (Run.build (Run.build r env).finalState env).finalState.status
        "state" = some (.vStr State.PENDING) :=
  ⟨build_ok_pending r env h1, build_ok_pending _ env h2⟩

/-- Claim C3: `RuntimeDBT.build` returns exactly `{**function_spec,
**task_spec, **run_spec}`; on any key the merged value is the run's when
present, else the task's, else the function's; and `Run.build` replaces the
run's spec with exactly this merged mapping (setting state PENDING and
persisting). -/
theorem C3_build_merge_precedence (denv : DbtEnv) (env : BuildEnv) (r : Run)
    (function task : PyDict) (fd td : PyDict) (parsed : TaskString)
    (hp : r._parse_task_string = .ok parsed)
    (hf : env.readFunction parsed = .ok function)
    (ht : env.readTask parsed = .ok task)
    (hreg : env.build_runtime (String.mk parsed.function_kind) =
      .ok (dbtRuntimeM denv))
    (hfd : dlookup function "spec" = some (.vDict fd))
    (htd : dlookup task "spec" = some (.vDict td))
    (hnodt : (td.map Prod.fst).Nodup)
    (hnodr : (r.spec.map Prod.fst).Nodup)
    (hloc : r.localFlag = false) :
    RuntimeDBT.build function task r.toDict =
        .ok (pyMerge (pyMerge fd td) r.spec) ∧
    (∀ k, dlookup (pyMerge (pyMerge fd td) r.spec) k =
      oOr (dlookup r.spec k) (oOr (dlookup td k) (dlookup fd k))) ∧
    Run.build r env =
      ⟨.ok (), buildFinal r (pyMerge (pyMerge fd td) r.spec),
       [buildFinal r (pyMerge (pyMerge fd td) r.spec)]⟩ := by
  have hrd : dlookup r.toDict "spec" = some (.vDict r.spec) := by
    simp [Run.toDict, dlookup]
  have hbuild : RuntimeDBT.build function task r.toDict =
      .ok (pyMerge (pyMerge fd td) r.spec) := by
    unfold RuntimeDBT.build
    rw [hfd, htd, hrd]
  refine ⟨hbuild, ?_, ?_⟩
  · intro k
    rw [dlookup_pyMerge_nodup _ _ _ hnodr, dlookup_pyMerge_nodup _ _ _ hnodt]
  · simp [Run.build, hp, hf, ht, hreg, dbtRuntimeM, hbuild, Run.save, hloc,
      buildFinal]

theorem C3_witness :
    RuntimeDBT.build c3function c3task c3run.toDict = .ok c3merged ∧
    dlookup c3merged "b" = some (.vStr "t") ∧
    dlookup c3merged "c" = some (.vStr "r") ∧
    Run.build c3run c3env =
      ⟨.ok (), buildFinal c3run c3merged, [buildFinal c3run c3merged]⟩ := by
  have h := C3_build_merge_precedence cDbtEnv c3env c3run c3function c3task
    [("a", .vStr "f"), ("b", .vStr "f")] [("b", .vStr "t"), ("c", .vStr "t")]
    ⟨"dbt".data, "transform".data, "n".data, "i".data, "t1".data⟩
    (by simp [Run._parse_task_string, c3run, dlookup, parse_task_string,
      pySplit, pySplitGo, List.isPrefixOf])
    rfl rfl rfl
    (by simp [c3function, dlookup]) (by simp [c3task, dlookup])
    (by decide) (by decide) rfl
  refine ⟨h.1, ?_, ?_, h.2.2⟩
  · have hb := h.2.1 "b"
    simp only [c3merged]
    rw [hb]
    simp [c3run, dlookup, oOr]
  · have hc := h.2.1 "c"
    simp only [c3merged]
    rw [hc]
    simp [c3run, dlookup, oOr]

theorem C4_witness :
    dlookup (Run.build c3run c3env).finalState.status "state" =
        some (.vStr State.PENDING) ∧
      dlookup
        ((Run.build (Run.build c3run c3env).finalState c3env).finalState).status
        "state" = some (.vStr State.PENDING) :=
  C4_build_state_pending_idempotent c3run c3env
    (by simp [Run.build, Run._parse_task_string, parse_task_string, pySplit,
      pySplitGo, List.isPrefixOf, dlookup, c3run, c3env, c3function, c3task,
      dbtRuntimeM, RuntimeDBT.build, Run.toDict, pyMerge, pyUpdate, Run.save])
    (by simp [Run.build, Run._parse_task_string, parse_task_string, pySplit,
      pySplitGo, List.isPrefixOf, dlookup, c3run, c3env, c3function, c3task,
      dbtRuntimeM, RuntimeDBT.build, Run.toDict, pyMerge, pyUpdate, Run.save])

/-- Claim C5 counterexample: the string `"a+b://x/n:i/j"` does not match the
documented format (nothing after its last `/` is a `name:id` pair), yet
parsing succeeds, because the code reads the second `/`-segment rather than
the last. -/
theorem C5_counterexample :
    taskFormatSpec "a+b://x/n:i/j".data = false ∧
    parse_task_string "a+b://x/n:i/j".data "t1".data =
      .ok ⟨"a".data, "b".data, "n".data, "i".data, "t1".data⟩ := by
  constructor
  · simp [taskFormatSpec, pySplit, pySplitGo, List.isPrefixOf]
  · simp [parse_task_string, pySplit, pySplitGo, List.isPrefixOf]

/-- Claim C5 (amended): a task string fails to parse (MalformedReferenceError)
when it has no `://` occurrence, when its pre-`://` part has no `+`, when the
part after `://` has no second `/`-segment, or when that second `/`-segment
has no `:`.  (Not every string deviating from the documented format fails:
the code reads the second `/`-segment, not the segment after the last `/`.) -/
theorem C5_malformed_strings_fail (s tid : List Char) :
    (hasOcc [':', '/', '/'] s = false →
      parse_task_string s tid = .error (.valueError "values to unpack")) ∧
    (∀ kinds func, pySplit [':', '/', '/'] s = [kinds, func] →
      ('+' ∉ kinds →
        parse_task_string s tid = .error (.valueError "values to unpack")) ∧
      (∀ fk tk, pySplit ['+'] kinds = [fk, tk] →
        ((pySplit ['/'] func).get? 1 = none →
          parse_task_string s tid =
            .error (.indexError "list index out of range")) ∧
        (∀ seg, (pySplit ['/'] func).get? 1 = some seg → ':' ∉ seg →
          parse_task_string s tid =
            .error (.valueError "values to unpack")))) := by
  constructor
  · intro h
    unfold parse_task_string
    simp [pySplit_no_occ ':' ['/', '/'] s h]
  · intro kinds func hsf
    constructor
    · intro hplus
      have h2 : pySplit ['+'] kinds = [kinds] :=
        pySplit_no_occ '+' [] kinds
          (hasOcc_eq_false_of_not_mem '+' [] kinds hplus)
      unfold parse_task_string
      rw [hsf]
      simp [h2]
    · intro fk tk hk
      constructor
      · intro hidx
        unfold parse_task_string
        rw [hsf]
        rw [List.get?_eq_getElem?] at hidx
        simp [hk, hidx]
      · intro seg hseg hcol
        have h4 : pySplit [':'] seg = [seg] :=
          pySplit_no_occ ':' [] seg
            (hasOcc_eq_false_of_not_mem ':' [] seg hcol)
        unfold parse_task_string
        rw [hsf]
        rw [List.get?_eq_getElem?] at hseg
        simp [hk, hseg, h4]

theorem C5_witness :
    parse_task_string "abc".data "t".data =
        .error (.valueError "values to unpack") ∧
    parse_task_string "ab://x/n:i".data "t".data =
        .error (.valueError "values to unpack") ∧
    parse_task_string "a+b://x/ni".data "t".data =
        .error (.valueError "values to unpack") ∧
    parse_task_string "a+b://ni".data "t".data =
        .error (.indexError "list index out of range") :=
  ⟨(C5_malformed_strings_fail "abc".data "t".data).1 (by decide),
   (((C5_malformed_strings_fail "ab://x/n:i".data "t".data).2 "ab".data
       "x/n:i".data
       (by simp [pySplit, pySplitGo, List.isPrefixOf])).1 (by decide)),
   ((((C5_malformed_strings_fail "a+b://x/ni".data "t".data).2 "a+b".data
       "x/ni".data (by simp [pySplit, pySplitGo, List.isPrefixOf])).2 "a".data
       "b".data (by simp [pySplit, pySplitGo, List.isPrefixOf])).2 "ni".data
     (by simp [pySplit, pySplitGo, List.isPrefixOf]) (by decide)),
   ((((C5_malformed_strings_fail "a+b://ni".data "t".data).2 "a+b".data
       "ni".data (by simp [pySplit, pySplitGo, List.isPrefixOf])).2 "a".data
       "b".data (by simp [pySplit, pySplitGo, List.isPrefixOf])).1
     (by simp [pySplit, pySplitGo, List.isPrefixOf]))⟩

/-- Claim C6: for every well-formed task string
`k1+k2://p/n:i` (components free of the separator characters), parsing yields
the five fields and re-encoding the parsed fields over the same path yields
the identical string. -/
theorem C6_task_string_roundtrip (k1 k2 p n i tid : List Char)
    (hk1p : '+' ∉ k1) (hk1c : ':' ∉ k1)
    (hk2p : '+' ∉ k2) (hk2c : ':' ∉ k2)
    (hpc : ':' ∉ p) (hps : '/' ∉ p)
    (hnc : ':' ∉ n) (hns : '/' ∉ n)
    (hic : ':' ∉ i) (his : '/' ∉ i) :
    ∃ ts : TaskString,
      parse_task_string (taskStringEncode k1 k2 p n i) tid = .ok ts ∧
      ts.function_kind = k1 ∧ ts.task_kind = k2 ∧ ts.function_name = n ∧
      ts.function_id = i ∧ ts.task_id = tid ∧
      taskStringEncode ts.function_kind ts.task_kind p ts.function_name
        ts.function_id = taskStringEncode k1 k2 p n i :=
  ⟨⟨k1, k2, n, i, tid⟩,
   parse_taskStringEncode k1 k2 p n i tid hk1p hk1c hk2p hk2c hpc hps hnc hns
     hic his,
   rfl, rfl, rfl, rfl, rfl, rfl⟩

theorem C6_witness :
    ∃ ts : TaskString,
      parse_task_string
        (taskStringEncode "dbt".data "transform".data "proj".data "fn".data
          "f1".data) "t1".data = .ok ts ∧
      ts.function_kind = "dbt".data ∧ ts.task_kind = "transform".data ∧
      ts.function_name = "fn".data ∧ ts.function_id = "f1".data ∧
      ts.task_id = "t1".data ∧
      taskStringEncode ts.function_kind ts.task_kind "proj".data
        ts.function_name ts.function_id =
        taskStringEncode "dbt".data "transform".data "proj".data "fn".data
          "f1".data :=
  C6_task_string_roundtrip "dbt".data "transform".data "proj".data "fn".data
    "f1".data "t1".data (by decide) (by decide) (by decide) (by decide)
    (by decide) (by decide) (by decide) (by decide) (by decide) (by decide)

/-- Claim C7 counterexample: a run dict whose decoded task kind (`foo`) is
unsupported does not make `RuntimeDBT.run` fail with the unsupported-task
error when the run is not PENDING: the invalid-state EntityError is raised
instead. -/
theorem C7_counterexample :
    RuntimeDBT.decodeAction "dbt+foo://p/n:i" = .ok "foo".data ∧
    ("foo" : String) ∉ RuntimeDBT.tasks ∧
    RuntimeDBT.run cDbtEnv c7dict = .error (.entityError notPendingMsg) ∧
    RuntimeDBT.run cDbtEnv c7dict ≠
      .error (.entityError "Task foo not allowed for DBT runtime") := by
  have h3 : RuntimeDBT.run cDbtEnv c7dict = .error (.entityError notPendingMsg) := by
    simp [RuntimeDBT.run, c7dict, asMapping, dlookup, stateIsPending,
      StatusState.PENDING, State.PENDING, notPendingMsg]
  refine ⟨?_, by decide, h3, ?_⟩
  · simp [RuntimeDBT.decodeAction, pySplit, pySplitGo, List.isPrefixOf]
  · rw [h3]
    simp [notPendingMsg]

/-- Claim C7 (amended): for every PENDING run dict, `RuntimeDBT.run` fails
with `EntityError("Task <kind> not allowed for DBT runtime")` when the decoded
task kind is not in the supported-task list, and routes to the transform
handler when it is.  (A non-PENDING run dict fails with the invalid-state
error first, whatever its task kind.) -/
theorem C7_dispatch (env : DbtEnv) (run : PyDict) (status spec : PyDict)
    (task : String) (a : List Char)
    (hstat : dlookup run "status" = some (.vDict status))
    (hpend : stateIsPending status = true)
    (hspec : dlookup run "spec" = some (.vDict spec))
    (htask : dlookup spec "task" = some (.vStr task))
    (ha : RuntimeDBT.decodeAction task = .ok a) :
    (String.mk a ∉ RuntimeDBT.tasks →
      RuntimeDBT.run env run = .error (.entityError
        ("Task " ++ String.mk a ++ " not allowed for DBT runtime"))) ∧
    (String.mk a ∈ RuntimeDBT.tasks →
      RuntimeDBT.run env run = RuntimeDBT.transform env run) := by
  constructor
  · intro hmem
    have hne : a ≠ TaskKinds.TRANSFORM.data := by
      intro he
      apply hmem
      rw [he]
      exact List.mem_singleton.mpr rfl
    simp [RuntimeDBT.run, hstat, asMapping, hpend, hspec, htask, asStr, ha, hne]
  · intro hmem
    have heq : a = TaskKinds.TRANSFORM.data := by
      have hmk : String.mk a = TaskKinds.TRANSFORM := by
        simpa [RuntimeDBT.tasks] using hmem
      calc a = (String.mk a).data := rfl
        _ = TaskKinds.TRANSFORM.data := by rw [hmk]
    simp [RuntimeDBT.run, hstat, asMapping, hpend, hspec, htask, asStr, ha, heq]

theorem C7_witness :
    RuntimeDBT.run cDbtEnv c7pdict = RuntimeDBT.transform cDbtEnv c7pdict :=
  (C7_dispatch cDbtEnv c7pdict [("state", .vStr "PENDING")]
      [("task", .vStr "dbt+transform://p/n:i")] "dbt+transform://p/n:i"
      "transform".data
      (by simp [c7pdict, dlookup])
      (by simp [stateIsPending, dlookup, StatusState.PENDING, State.PENDING])
      (by simp [c7pdict, dlookup])
      (by simp [dlookup])
      (by simp [RuntimeDBT.decodeAction, pySplit, pySplitGo,
        List.isPrefixOf])).2
    (by decide)

lemma findFirstId_canonical (entries : List (String × String)) (k : String) :
    findFirstId (resultEntries entries) k =
      .ok ((entries.lookup k).map PyVal.vStr) := by
  induction entries with
  | nil => rfl
  | cons p rest ih =>
    obtain ⟨k1, i1⟩ := p
    by_cases h : k1 = k
    · subst h
      simp [resultEntries, findFirstId, dlookup, List.lookup]
    · have h1 : (k1 == k) = false := beq_eq_false_iff_ne.mpr h
      have h2 : (k == k1) = false := beq_eq_false_iff_ne.mpr (Ne.symm h)
      simp only [resultEntries, List.map_cons] at ih ⊢
      simp [findFirstId, dlookup, List.lookup, h1, h2, ih]

lemma resolveAll_canonical {A : Type} (entries : List (String × String))
    (g : PyVal → A) :
    resolveAll (resultEntries entries) g =
      .ok (entries.map (fun p => g (.vStr p.2))) := by
  induction entries with
  | nil => rfl
  | cons p rest ih =>
    obtain ⟨k1, i1⟩ := p
    simp only [resultEntries, List.map_cons] at ih ⊢
    simp only [resolveAll]
    rw [ih]
    simp [dlookup]

/-- Claim C8: `get_artifacts`/`get_dataitem` on a backend-mode Run: a missing
result list fails with the no-result EntityError; with a key, the first entry
carrying that key is resolved through the lookup collaborator, and a key with
no matching entry fails with the not-found EntityError; with no key all
entries are resolved. -/
theorem C8_get_artifacts_dataitems {A : Type} (r : Run) (resp : PyDict)
    (g : PyVal → A) (k : String) (entries : List (String × String))
    (hloc : r.localFlag = false) :
    (∀ okey, statusFieldOf resp "artifacts" = .ok none →
      Run.get_artifacts r resp g okey =
        .error (.entityError "Run has no result (maybe try when it finishes).")) ∧
    (statusFieldOf resp "artifacts" =
        .ok (some (.vList (resultEntries entries))) →
      (∀ i, entries.lookup k = some i →
        Run.get_artifacts r resp g (some k) = .ok (.inl (g (.vStr i)))) ∧
      (entries.lookup k = none →
        Run.get_artifacts r resp g (some k) =
          .error (.entityError ("No artifact found with key '" ++ k ++ "'."))) ∧
      Run.get_artifacts r resp g none =
        .ok (.inr (entries.map (fun p => g (.vStr p.2))))) ∧
    (∀ okey, statusFieldOf resp "dataitems" = .ok none →
      Run.get_dataitem r resp g okey =
        .error (.entityError "Run has no result (maybe try when it finishes).")) ∧
    (statusFieldOf resp "dataitems" =
        .ok (some (.vList (resultEntries entries))) →
      (∀ i, entries.lookup k = some i →
        Run.get_dataitem r resp g (some k) = .ok (.inl (g (.vStr i)))) ∧
      (entries.lookup k = none →
        Run.get_dataitem r resp g (some k) =
          .error (.entityError ("No dataitem found with key '" ++ k ++ "'."))) ∧
      Run.get_dataitem r resp g none =
        .ok (.inr (entries.map (fun p => g (.vStr p.2))))) := by
  refine ⟨?_, ?_, ?_, ?_⟩
  · intro okey h
    simp [Run.get_artifacts, hloc, h]
  · intro hres
    refine ⟨?_, ?_, ?_⟩
    · intro i hlk
      simp [Run.get_artifacts, hloc, hres, findFirstId_canonical, hlk]
    · intro hlk
      simp [Run.get_artifacts, hloc, hres, findFirstId_canonical, hlk]
    · simp [Run.get_artifacts, hloc, hres, resolveAll_canonical]
  · intro okey h
    simp [Run.get_dataitem, hloc, h]
  · intro hres
    refine ⟨?_, ?_, ?_⟩
    · intro i hlk
      simp [Run.get_dataitem, hloc, hres, findFirstId_canonical, hlk]
    · intro hlk
      simp [Run.get_dataitem, hloc, hres, findFirstId_canonical, hlk]
    · simp [Run.get_dataitem, hloc, hres, resolveAll_canonical]

theorem C8_witness :
    Run.get_artifacts c8run c8resp (fun v => v) (some "out") =
        .ok (.inl (.vStr "a1")) ∧
    Run.get_artifacts c8run c8resp (fun v => v) (some "missing") =
        .error (.entityError "No artifact found with key 'missing'.") ∧
    Run.get_artifacts c8run c8respEmpty (fun v => v) none =
        .error (.entityError "Run has no result (maybe try when it finishes).") ∧
    Run.get_dataitem c8run c8resp (fun v => v) none =
        .ok (.inr [.vStr "d1"]) :=
  ⟨(((C8_get_artifacts_dataitems c8run c8resp (fun v => v) "out" [("out", "a1")]
        rfl).2.1
      (by simp [statusFieldOf, c8resp, dlookup])).1 "a1" (by simp [List.lookup])),
   (((C8_get_artifacts_dataitems c8run c8resp (fun v => v) "missing"
        [("out", "a1")] rfl).2.1
      (by simp [statusFieldOf, c8resp, dlookup])).2.1 (by simp [List.lookup])),
   ((C8_get_artifacts_dataitems c8run c8respEmpty (fun v => v) "out" [] rfl).1
      none (by simp [statusFieldOf, c8respEmpty, dlookup])),
   (((C8_get_artifacts_dataitems c8run c8resp (fun v => v) "out" [("out", "d1")]
        rfl).2.2.2
      (by simp [statusFieldOf, c8resp, dlookup])).2.2)⟩

/-- The `dataitems` entry of the transform status mapping is the one produced
by `get_dataitem_info`. -/
lemma dlookup_dataitems_of_transform_shape (info : PyDict) (tv : PyVal) :
    dlookup (pyMerge (pyMerge info [("timing", tv)])
      [("state", .vStr StatusState.COMPLETED)]) "dataitems" =
    dlookup info "dataitems" := by
  rw [pyMerge_single, pyMerge_single, dlookup_pyUpdate, dlookup_pyUpdate]
  simp

/-- Claim C9: every successful transform execution with declared output name
`output` returns a status with `state = COMPLETED` and a `dataitems` list with
exactly one entry, whose key is `output` and whose id is the structured
`store://<project>/dataitems/<kind>/<name>:<id>` path of the dataitem newly
created through the dataitem-creation collaborator. -/
theorem C9_transform_status (env : DbtEnv) (run : PyDict) (st : PyDict)
    (spec : PyDict) (outputsRaw : PyVal) (output : String)
    (hspec : asMapping (dlookup run "spec") = .ok spec)
    (houtRaw : pyGet2 spec "outputs" "dataitems" (.vList []) = .ok outputsRaw)
    (hout : RuntimeDBT.parse_outputs outputsRaw = .ok output)
    (h : RuntimeDBT.transform env run = .ok st) :
    dlookup st "state" = some (.vStr StatusState.COMPLETED) ∧
    ∃ d : Dataitem,
      (∃ nm pth rw cp, env.newDataitemResult (projectOf run) nm
        DataitemKinds.DBT pth env.get_uiid rw cp = .ok d) ∧
      dlookup st "dataitems" = some (.vList [.vDict
        [("key", .vStr output), ("kind", .vStr d.kind),
         ("id", .vStr ("store://" ++ d.project ++ "/dataitems/" ++ d.kind ++
           "/" ++ d.name ++ ":" ++ d.id))]]) := by
  obtain ⟨spec1, outputsRaw1, output1, parsed, dataitem, tv, hspec1, houtRaw1,
    hout1, hcreate, htv, hst⟩ := transform_ok_inv env run st h
  have hs : spec1 = spec := by
    rw [hspec] at hspec1
    exact ((Except.ok.injEq _ _).mp hspec1).symm
  subst hs
  have ho : outputsRaw1 = outputsRaw := by
    rw [houtRaw] at houtRaw1
    exact ((Except.ok.injEq _ _).mp houtRaw1).symm
  subst ho
  have hou : output1 = output := by
    rw [hout] at hout1
    exact ((Except.ok.injEq _ _).mp hout1).symm
  subst hou
  constructor
  · rw [hst]
    exact dlookup_state_of_transform_shape _ _
  · refine ⟨dataitem, ⟨parsed.name, parsed.path, parsed.raw_code,
      parsed.compiled_code, create_dataitem_ok_inv env parsed _ _ _ hcreate⟩, ?_⟩
    rw [hst, htv, dlookup_dataitems_of_transform_shape]
    simp [RuntimeDBT.get_dataitem_info, dlookup]

theorem C9_witness :
    RuntimeDBT.transform c9env c9run = .ok c9st ∧
    dlookup c9st "state" = some (.vStr StatusState.COMPLETED) ∧
    dlookup c9st "dataitems" = some (.vList [.vDict
      [("key", .vStr "t2"), ("kind", .vStr "dbt"),
       ("id", .vStr "store://proj/dataitems/dbt/t2:u9")]]) := by
  have htr : RuntimeDBT.transform c9env c9run = .ok c9st := rfl
  have h := C9_transform_status c9env c9run c9st c9spec (.vList [.vStr "t2"])
    "t2" (by simp [c9run, dlookup, asMapping])
    (by simp [pyGet2, c9spec, dlookup])
    (by simp [RuntimeDBT.parse_outputs, pyStr]) htr
  exact ⟨htr, h.1, by simp [c9st, dlookup]⟩
